import Mathlib

/-!
Shallow embedding of the UI controller in `src/app/static/app.js`.

The controller owns one boolean flag (`isLoading`), four mutually exclusive
view sections, the DOM text/class fields it writes, and two network calls.
Asynchronous outcomes (the research fetch, the quota fetch) are passed in as
explicit outcome values; DOM reads/writes become record fields; network calls,
the cosmetic shake and the console log become entries of an event list.
-/

namespace SmartFinancialReport

/-- Visibility of the four sections `heroSection`, `loadingSection`,
`errorSection`, `reportSection` (`style.display` ≠ `'none'`). -/
structure Views where
  hero : Bool
  loading : Bool
  error : Bool
  report : Bool
  deriving Repr, DecidableEq

/-- The `quotaValue` element: its `textContent` and whether each of the two
CSS classes `warning` / `empty` is present. -/
structure QuotaEl where
  text : String
  warning : Bool
  empty : Bool
  deriving Repr, DecidableEq

/-- One loading step element `step1`..`step4`: the `active` / `done` classes
and its `textContent`. -/
structure StepEl where
  active : Bool
  done : Bool
  text : String
  deriving Repr, DecidableEq

/-- The DOM/JS state the controller reads and writes. -/
structure AppState where
  isLoading : Bool
  views : Views
  tickerInput : String
  loadingTicker : String
  reportTicker : String
  reportName : String
  badgeText : String
  badgeClass : String
  reportContent : String
  errorTitle : String
  errorMessage : String
  quotaEl : QuotaEl
  steps : List StepEl
  deriving Repr, DecidableEq

/-- `GET /api/quota` success body `{ remaining, total }`. -/
structure QuotaData where
  remaining : Nat
  total : Nat
  deriving Repr, DecidableEq

/-- `POST /api/research` success body; `name` and `content` may be absent. -/
structure ReportData where
  ticker : String
  name : Option String
  cached : Bool
  content : Option String
  deriving Repr, DecidableEq

/-- Non-2xx `POST /api/research` body; both fields may be absent. -/
structure ErrorBody where
  error : Option String
  message : Option String
  deriving Repr, DecidableEq

/-- Outcome of `await fetch('/api/research', ...)` followed by
`await res.json()`: success (2xx, parsed body), non-2xx with parsed body,
or a throw from the fetch or the parse. -/
inductive ResearchOutcome where
  | success (data : ReportData)
  | httpError (body : ErrorBody)
  | thrown
  deriving Repr

/-- Outcome of `await fetch('/api/quota')` followed by `await res.json()`. -/
inductive QuotaOutcome where
  | success (data : QuotaData)
  | thrown
  deriving Repr, DecidableEq

/-- Observable side effects other than DOM mutation. -/
inductive Event where
  | researchRequest (ticker : String)
  | quotaRequest
  | shake
  | logQuotaFailure
  deriving Repr, DecidableEq

/-- `e` is the `quotaRequest` event. -/
def isQuotaRequest : Event → Bool
  | Event.quotaRequest => true
  | _ => false

/-- JS `x || fallback` on a string-or-absent value: absent and the empty
string are falsy. -/
def jsOrString (x : Option String) (fallback : String) : String :=
  match x with
  | some v => if v = "" then fallback else v
  | none => fallback

/-- JS `String.prototype.trim()`: drop leading and trailing whitespace. -/
def jsTrim (s : String) : String :=
  String.mk (((s.toList.dropWhile Char.isWhitespace).reverse.dropWhile
    Char.isWhitespace).reverse)

/-- Replace the first occurrence of `pat` by `repl` in a character list
(JS `String.prototype.replace` with a string pattern). -/
def replaceFirstList (pat repl : List Char) : List Char → List Char
  | [] => []
  | c :: cs =>
    if pat.isPrefixOf (c :: cs) then repl ++ (c :: cs).drop pat.length
    else c :: replaceFirstList pat repl cs

/-- JS `s.replace(pat, repl)` with a string pattern: first occurrence only. -/
def jsReplaceFirst (s pat repl : String) : String :=
  String.mk (replaceFirstList pat.toList repl.toList s.toList)

/-- `hideAll()`: set every section's `style.display` to `'none'`. -/
def hideAll (s : AppState) : AppState :=
  { s with views := { hero := false, loading := false, error := false, report := false } }

/-- `showError(title, message)`. -/
def showError (title message : String) (s : AppState) : AppState :=
  let s := hideAll s
  { s with views := { s.views with error := true },
           errorTitle := title,
           errorMessage := message }

/-- The markdown branch of `showReport`: `marked.parse(content)` when the
renderer is available, else wrap in `<pre>` tags. -/
def renderContent (marked : Option (String → String)) (content : String) : String :=
  match marked with
  | some parse => parse content
  | none => "<pre>" ++ content ++ "</pre>"

/-- `showReport(data)` (the final `scrollIntoView` is purely positional and
not modelled). -/
def showReport (marked : Option (String → String)) (data : ReportData)
    (s : AppState) : AppState :=
  let s := hideAll s
  { s with views := { s.views with report := true },
           reportTicker := data.ticker,
           reportName := jsOrString data.name "",
           badgeText := if data.cached then "📦 快取" else "✨ 即時生成",
           badgeClass := if data.cached then "report-badge cached" else "report-badge fresh",
           reportContent := renderContent marked (jsOrString data.content "") }

/-- The synchronous part of `showLoading(ticker)`: hide all, show the loading
section, write the ticker, and clear `active`/`done` on every step. The four
`setTimeout` callbacks are modelled separately by `timerFire`. -/
def showLoading (ticker : String) (s : AppState) : AppState :=
  let s := hideAll s
  { s with views := { s.views with loading := true },
           loadingTicker := ticker,
           steps := s.steps.map (fun st => { st with active := false, done := false }) }

/-- `step.classList.remove('active'); add('done'); textContent = '✅ ' + ...`
applied to one prior step when a later timer fires. -/
def markDone (st : StepEl) : StepEl :=
  { st with active := false,
            done := true,
            text := "✅ " ++ jsReplaceFirst st.text "✅ " "" }

/-- The `setTimeout` callback scheduled by `showLoading` for step index `i`:
return immediately unless `isLoading` is still set; otherwise mark every
earlier step done and activate step `i`. -/
def timerFire (i : Nat) (s : AppState) : AppState :=
  if !s.isLoading then s
  else
    { s with steps := s.steps.mapIdx (fun j st =>
        if j < i then markDone st
        else if j = i then { st with active := true }
        else st) }

/-- The `quotaValue` element after a successful quota fetch: text set to
`remaining/total`, both classes removed, then `empty` added when zero remain,
else `warning` added when exactly one remains. -/
def quotaElAfter (d : QuotaData) : QuotaEl :=
  let q : QuotaEl := { text := toString d.remaining ++ "/" ++ toString d.total,
                       warning := false, empty := false }
  if d.remaining = 0 then { q with empty := true }
  else if d.remaining = 1 then { q with warning := true }
  else q

/-- `updateQuota()`: attempt the quota fetch; on success rewrite the quota
element; on a throw log the failure and leave the state untouched. -/
def updateQuota (qo : QuotaOutcome) (s : AppState) : AppState × List Event :=
  match qo with
  | QuotaOutcome.success d => ({ s with quotaEl := quotaElAfter d }, [Event.quotaRequest])
  | QuotaOutcome.thrown => (s, [Event.quotaRequest, Event.logQuotaFailure])

/-- `handleSearch()`, with the research and quota outcomes passed in. The
`finally` block (clear `isLoading`, call `updateQuota`) runs on every path
that started a request, including the early `return` inside `try`. -/
def handleSearch (marked : Option (String → String)) (ro : ResearchOutcome)
    (qo : QuotaOutcome) (s : AppState) : AppState × List Event :=
  if s.isLoading then (s, [])
  else
    let ticker := jsTrim s.tickerInput
    if ticker = "" then (s, [Event.shake])
    else
      let s1 := showLoading ticker { s with isLoading := true }
      let s2 :=
        match ro with
        | ResearchOutcome.success data => showReport marked data s1
        | ResearchOutcome.httpError body =>
            showError (jsOrString body.error "未知錯誤") (jsOrString body.message "") s1
        | ResearchOutcome.thrown =>
            showError "網路連線失敗" "請確認伺服器是否運行中" s1
      let s3 := { s2 with isLoading := false }
      let (s4, evq) := updateQuota qo s3
      (s4, Event.researchRequest ticker :: evq)

/-- `quickSearch(ticker)`: write the ticker into the input, then submit. -/
def quickSearch (marked : Option (String → String)) (ticker : String)
    (ro : ResearchOutcome) (qo : QuotaOutcome) (s : AppState) : AppState × List Event :=
  handleSearch marked ro qo { s with tickerInput := ticker }

/-- `resetToSearch()` (focus and scrolling are positional and not modelled). -/
def resetToSearch (s : AppState) : AppState :=
  let s := hideAll s
  { s with views := { s.views with hero := true },
           tickerInput := "" }

/-- One user-visible operation together with the outcomes of the network
calls it performs. -/
inductive Op where
  | submit (marked : Option (String → String)) (ro : ResearchOutcome) (qo : QuotaOutcome)
  | refreshQuota (qo : QuotaOutcome)
  | reset
  | quickSelect (marked : Option (String → String)) (ticker : String)
      (ro : ResearchOutcome) (qo : QuotaOutcome)
  | timer (i : Nat)

/-- Apply one operation to the state. -/
def step (s : AppState) : Op → AppState
  | Op.submit marked ro qo => (handleSearch marked ro qo s).1
  | Op.refreshQuota qo => (updateQuota qo s).1
  | Op.reset => resetToSearch s
  | Op.quickSelect marked ticker ro qo => (quickSearch marked ticker ro qo s).1
  | Op.timer i => timerFire i s

/-- Run a sequence of operations. -/
def run (s : AppState) (ops : List Op) : AppState :=
  ops.foldl step s

/-- How many of the four sections are visible. -/
def countVisible (v : Views) : Nat :=
  (if v.hero then 1 else 0) + (if v.loading then 1 else 0) +
    (if v.error then 1 else 0) + (if v.report then 1 else 0)

/-- A concrete state matching the page as first served: hero visible, input
empty, placeholder quota text, four pristine step labels. -/
def initState : AppState :=
  { isLoading := false,
    views := { hero := true, loading := false, error := false, report := false },
    tickerInput := "",
    loadingTicker := "",
    reportTicker := "",
    reportName := "",
    badgeText := "",
    badgeClass := "",
    reportContent := "",
    errorTitle := "",
    errorMessage := "",
    quotaEl := { text := "-", warning := false, empty := false },
    steps := [{ active := false, done := false, text := "s1" },
              { active := false, done := false, text := "s2" },
              { active := false, done := false, text := "s3" },
              { active := false, done := false, text := "s4" }] }

/-- `updateQuota` touches only the quota element: views are unchanged. -/
lemma views_updateQuota (qo : QuotaOutcome) (s : AppState) :
    ((updateQuota qo s).1).views = s.views := by
  cases qo <;> rfl

/-- `updateQuota` does not touch the in-flight flag. -/
lemma isLoading_updateQuota (qo : QuotaOutcome) (s : AppState) :
    ((updateQuota qo s).1).isLoading = s.isLoading := by
  cases qo <;> rfl

/-- Every path of `handleSearch` leaves at most one view visible, provided at
most one was visible before (the no-op paths change nothing; every other path
runs `hideAll` and then shows exactly one section). -/
lemma countVisible_handleSearch (marked : Option (String → String))
    (ro : ResearchOutcome) (qo : QuotaOutcome) (s : AppState)
    (h : countVisible s.views ≤ 1) :
    countVisible ((handleSearch marked ro qo s).1).views ≤ 1 := by
  unfold handleSearch
  by_cases hl : s.isLoading = true
  · simpa [hl] using h
  · by_cases ht : jsTrim s.tickerInput = ""
    · simpa [hl, ht] using h
    · cases qo <;> cases ro <;>
        simp [hl, ht, updateQuota, showReport, showError, showLoading, hideAll, countVisible]

/-- `timerFire` touches only the step elements: views are unchanged. -/
lemma views_timerFire (i : Nat) (s : AppState) :
    (timerFire i s).views = s.views := by
  unfold timerFire
  split <;> rfl

/-- Every operation preserves "at most one view visible". -/
lemma countVisible_step (s : AppState) (op : Op)
    (h : countVisible s.views ≤ 1) :
    countVisible (step s op).views ≤ 1 := by
  cases op with
  | submit marked ro qo => exact countVisible_handleSearch marked ro qo s h
  | refreshQuota qo => rw [step, views_updateQuota]; exact h
  | reset => simp [step, resetToSearch, hideAll, countVisible]
  | quickSelect marked ticker ro qo =>
      exact countVisible_handleSearch marked ro qo { s with tickerInput := ticker } h
  | timer i => rw [step, views_timerFire]; exact h

/-- C1: for every sequence of operations (submit, refreshQuota, resetToSearch,
quickSelect, and the loading timers) and every outcome of their network calls,
at most one of the four views {hero, loading, report, error} is visible after
any state transition, because every transition first hides all four views and
then shows exactly one. -/
theorem views_mutually_exclusive (s : AppState) (ops : List Op)
    (h : countVisible s.views ≤ 1) :
    countVisible (run s ops).views ≤ 1 := by
  induction ops generalizing s with
  | nil => exact h
  | cons op ops ih =>
      rw [run, List.foldl_cons]
      exact ih (step s op) (countVisible_step s op h)

/-- Witness for C1 at the initial page state and a concrete operation
sequence covering a successful submit, a reset, a failing quota refresh, a
rejected quick-select and a stale timer. -/
theorem views_mutually_exclusive_witness :
    countVisible initState.views ≤ 1 ∧
      countVisible (run initState
        [Op.submit none
          (ResearchOutcome.success { ticker := "AAPL", name := none,
                                     cached := true, content := some "# Report" })
          (QuotaOutcome.success { remaining := 2, total := 5 }),
         Op.reset,
         Op.refreshQuota QuotaOutcome.thrown,
         Op.quickSelect none "2330"
           (ResearchOutcome.httpError { error := some "Quota exceeded",
                                        message := some "Try tomorrow" })
           (QuotaOutcome.success { remaining := 0, total := 5 }),
         Op.timer 2]).views ≤ 1 :=
  ⟨by decide,
   views_mutually_exclusive initState _ (by decide)⟩

/-- C2: invoking submit while the in-flight flag is true is a no-op: no
network call is issued, no view changes, and no state is mutated. -/
theorem submit_inflight_noop (marked : Option (String → String))
    (ro : ResearchOutcome) (qo : QuotaOutcome) (s : AppState)
    (h : s.isLoading = true) :
    handleSearch marked ro qo s = (s, []) := by
  unfold handleSearch
  rw [h]
  rfl

/-- Witness for C2: a concrete in-flight state on which submit returns the
state unchanged with no events. -/
theorem submit_inflight_noop_witness :
    ({ initState with isLoading := true } : AppState).isLoading = true ∧
      handleSearch none ResearchOutcome.thrown QuotaOutcome.thrown
        { initState with isLoading := true } =
        ({ initState with isLoading := true }, []) :=
  ⟨rfl, submit_inflight_noop none ResearchOutcome.thrown QuotaOutcome.thrown
    { initState with isLoading := true } rfl⟩

/-- C6: when the trimmed input is empty, submit issues no network call and
only triggers the cosmetic shake cue: the state is returned unchanged and the
only event is the shake. -/
theorem submit_empty_input (marked : Option (String → String))
    (ro : ResearchOutcome) (qo : QuotaOutcome) (s : AppState)
    (h1 : s.isLoading = false) (h2 : jsTrim s.tickerInput = "") :
    handleSearch marked ro qo s = (s, [Event.shake]) := by
  unfold handleSearch
  rw [h1, h2]
  rfl

/-- Witness for C6 at a whitespace-only input. -/
theorem submit_empty_input_witness :
    ({ initState with tickerInput := "   " } : AppState).isLoading = false ∧
      jsTrim "   " = "" ∧
      handleSearch none ResearchOutcome.thrown QuotaOutcome.thrown
        { initState with tickerInput := "   " } =
        ({ initState with tickerInput := "   " }, [Event.shake]) :=
  ⟨rfl, by decide,
   submit_empty_input none ResearchOutcome.thrown QuotaOutcome.thrown
     { initState with tickerInput := "   " } rfl (by decide)⟩

/-- C3: for every submit that starts a request (not in flight, nonempty
trimmed input), after the request settles — success, non-2xx rejection, or a
throw — the in-flight flag is false and exactly one quota refresh is
attempted. -/
theorem submit_settles_flag_and_quota (marked : Option (String → String))
    (ro : ResearchOutcome) (qo : QuotaOutcome) (s : AppState)
    (h1 : s.isLoading = false) (h2 : jsTrim s.tickerInput ≠ "") :
    ((handleSearch marked ro qo s).1).isLoading = false ∧
      ((handleSearch marked ro qo s).2).countP isQuotaRequest = 1 := by
  unfold handleSearch
  cases ro <;> cases qo <;>
    simp [h1, h2, updateQuota, showReport, showError, showLoading, hideAll, isQuotaRequest]

/-- Witness for C3 on a successful submit from the initial state with input
"AAPL" and a thrown quota refresh. -/
theorem submit_settles_flag_and_quota_witness :
    ({ initState with tickerInput := "AAPL" } : AppState).isLoading = false ∧
      jsTrim "AAPL" ≠ "" ∧
      (((handleSearch none
          (ResearchOutcome.success { ticker := "AAPL", name := none,
                                     cached := false, content := some "# Report" })
          QuotaOutcome.thrown { initState with tickerInput := "AAPL" }).1).isLoading = false ∧
        ((handleSearch none
          (ResearchOutcome.success { ticker := "AAPL", name := none,
                                     cached := false, content := some "# Report" })
          QuotaOutcome.thrown { initState with tickerInput := "AAPL" }).2).countP
            isQuotaRequest = 1) :=
  ⟨rfl, by decide,
   submit_settles_flag_and_quota none
     (ResearchOutcome.success { ticker := "AAPL", name := none,
                                cached := false, content := some "# Report" })
     QuotaOutcome.thrown { initState with tickerInput := "AAPL" } rfl (by decide)⟩

/-- C4: on a non-2xx response, submit switches to the error view showing the
server-supplied title and message; an absent (or empty, which JS treats as
falsy) `error` field falls back to the fixed generic title, and an absent
`message` field falls back to the empty string. -/
theorem submit_http_error_view (marked : Option (String → String))
    (body : ErrorBody) (qo : QuotaOutcome) (s : AppState)
    (h1 : s.isLoading = false) (h2 : jsTrim s.tickerInput ≠ "") :
    ((handleSearch marked (ResearchOutcome.httpError body) qo s).1).views =
        { hero := false, loading := false, error := true, report := false } ∧
      ((handleSearch marked (ResearchOutcome.httpError body) qo s).1).errorTitle =
        jsOrString body.error "未知錯誤" ∧
      ((handleSearch marked (ResearchOutcome.httpError body) qo s).1).errorMessage =
        jsOrString body.message "" := by
  unfold handleSearch
  cases qo <;> simp [h1, h2, updateQuota, showError, showLoading, hideAll]

/-- Witness for C4 on a 429-style body with both fields present (so the
error view shows "Quota exceeded" / "Try tomorrow"). -/
theorem submit_http_error_view_witness :
    ({ initState with tickerInput := "AAPL" } : AppState).isLoading = false ∧
      jsTrim "AAPL" ≠ "" ∧
      (((handleSearch none
          (ResearchOutcome.httpError { error := some "Quota exceeded",
                                       message := some "Try tomorrow" })
          (QuotaOutcome.success { remaining := 0, total := 5 })
          { initState with tickerInput := "AAPL" }).1).views =
          { hero := false, loading := false, error := true, report := false } ∧
        ((handleSearch none
          (ResearchOutcome.httpError { error := some "Quota exceeded",
                                       message := some "Try tomorrow" })
          (QuotaOutcome.success { remaining := 0, total := 5 })
          { initState with tickerInput := "AAPL" }).1).errorTitle =
          jsOrString (some "Quota exceeded") "未知錯誤" ∧
        ((handleSearch none
          (ResearchOutcome.httpError { error := some "Quota exceeded",
                                       message := some "Try tomorrow" })
          (QuotaOutcome.success { remaining := 0, total := 5 })
          { initState with tickerInput := "AAPL" }).1).errorMessage =
          jsOrString (some "Try tomorrow") "") :=
  ⟨rfl, by decide,
   submit_http_error_view none
     { error := some "Quota exceeded", message := some "Try tomorrow" }
     (QuotaOutcome.success { remaining := 0, total := 5 })
     { initState with tickerInput := "AAPL" } rfl (by decide)⟩

/-- C5: when the research request or the parsing of its body throws, submit
switches to the error view with the fixed generic title and message,
regardless of any payload. -/
theorem submit_thrown_generic_error (marked : Option (String → String))
    (qo : QuotaOutcome) (s : AppState)
    (h1 : s.isLoading = false) (h2 : jsTrim s.tickerInput ≠ "") :
    ((handleSearch marked ResearchOutcome.thrown qo s).1).views =
        { hero := false, loading := false, error := true, report := false } ∧
      ((handleSearch marked ResearchOutcome.thrown qo s).1).errorTitle = "網路連線失敗" ∧
      ((handleSearch marked ResearchOutcome.thrown qo s).1).errorMessage =
        "請確認伺服器是否運行中" := by
  unfold handleSearch
  cases qo <;> simp [h1, h2, updateQuota, showError, showLoading, hideAll]

/-- Witness for C5 at a concrete state and a successful follow-up quota
refresh. -/
theorem submit_thrown_generic_error_witness :
    ({ initState with tickerInput := "2330" } : AppState).isLoading = false ∧
      jsTrim "2330" ≠ "" ∧
      (((handleSearch none ResearchOutcome.thrown
          (QuotaOutcome.success { remaining := 1, total := 5 })
          { initState with tickerInput := "2330" }).1).views =
          { hero := false, loading := false, error := true, report := false } ∧
        ((handleSearch none ResearchOutcome.thrown
          (QuotaOutcome.success { remaining := 1, total := 5 })
          { initState with tickerInput := "2330" }).1).errorTitle = "網路連線失敗" ∧
        ((handleSearch none ResearchOutcome.thrown
          (QuotaOutcome.success { remaining := 1, total := 5 })
          { initState with tickerInput := "2330" }).1).errorMessage =
          "請確認伺服器是否運行中") :=
  ⟨rfl, by decide,
   submit_thrown_generic_error none
     (QuotaOutcome.success { remaining := 1, total := 5 })
     { initState with tickerInput := "2330" } rfl (by decide)⟩

/-- C7: a successful quota fetch sets the displayed text to
"remaining/total" and applies exactly the visual state determined by
`remaining`: the `empty` class iff it is 0, the `warning` class iff it is
exactly 1. -/
theorem quota_success_display (d : QuotaData) (s : AppState) :
    (((updateQuota (QuotaOutcome.success d) s).1).quotaEl.text =
        toString d.remaining ++ "/" ++ toString d.total) ∧
      (((updateQuota (QuotaOutcome.success d) s).1).quotaEl.empty =
        decide (d.remaining = 0)) ∧
      (((updateQuota (QuotaOutcome.success d) s).1).quotaEl.warning =
        decide (d.remaining = 1)) := by
  refine ⟨?_, ?_, ?_⟩ <;>
    simp only [updateQuota, quotaElAfter] <;>
    split_ifs with h h2 <;> simp_all

/-- C8: a failing quota fetch leaves the whole state — in particular the
quota display and the views — unchanged, and its only effects are the fetch
attempt and a console log; no error view is shown. -/
theorem quota_failure_silent (s : AppState) :
    updateQuota QuotaOutcome.thrown s =
      (s, [Event.quotaRequest, Event.logQuotaFailure]) :=
  rfl

/-- C9: each staged progress-animation timer checks the in-flight flag first:
once the request has settled (the flag is false), a firing timer performs no
update at all. -/
theorem timer_noop_after_settled (i : Nat) (s : AppState)
    (h : s.isLoading = false) :
    timerFire i s = s := by
  unfold timerFire
  rw [h]
  rfl

/-- Witness for C9: the third timer firing on the settled initial state is
the identity. -/
theorem timer_noop_after_settled_witness :
    initState.isLoading = false ∧ timerFire 2 initState = initState :=
  ⟨rfl, timer_noop_after_settled 2 initState rfl⟩

/-- C10: after a successful quota refresh the `warning` and `empty` classes
are mutually exclusive — the quota element never carries both. -/
theorem quota_classes_exclusive (d : QuotaData) (s : AppState) :
    ((((updateQuota (QuotaOutcome.success d) s).1).quotaEl.warning) &&
        (((updateQuota (QuotaOutcome.success d) s).1).quotaEl.empty)) = false := by
  simp only [updateQuota, quotaElAfter]
  split_ifs <;> simp

end SmartFinancialReport
